import Mathlib

set_option maxRecDepth 4000

/-!
Verification development for the `lcmvis` scrollytelling front-end.

The repository is a React single-page presentation: fixture conversation
data (`src/data/conversation.js`) is replayed by scroll-driven step
machines (`CompactionScene`, `TraditionalScene`) that feed a shared
visualization panel (`SharedPanel`, `TokenBudget`, `MessagePill`,
`SummaryPill`, `DagPanel`).

This file gives a shallow embedding of that code:

* the fixture constants are transcribed verbatim (apostrophes inside
  string literals are written with the `\x27` escape);
* pure helpers (`itemsForStep`, `sumTokens`, the pill style lookups,
  the token-budget arithmetic) become Lean functions;
* the stateful scenes become explicit state-passing step functions.
  React `useState`/`useRef` cells become record fields; a GSAP
  `delayedCall` becomes an entry in an explicit pending-timer list that
  a separate `fire` function consumes; a collapse animation's
  `onComplete` is modelled as completing immediately.  Scroll progress
  (a JS float in `[0,1]`) is modelled as a rational number, which is
  exact for the threshold comparisons against `0.4` and `0.72`.

Theorems about the embedding follow the definitions.
-/

/-- A simulated conversation message (an entry of `MESSAGES` or
`T_MESSAGES`). -/
structure Message where
  id : String
  role : String
  tokens : Nat
  label : String
  snippet : String
  deriving DecidableEq

/-- A summary node of the fixture DAG (`SUMMARY_*`, `D1_*`, `D2_SUMMARY`). -/
structure Summary where
  id : String
  kind : String
  depth : Nat
  tokens : Nat
  timeRange : String
  descendantCount : Nat
  snippet : String
  sourceIds : List String
  deriving DecidableEq

/-- The `FRESH_TAIL_PLACEHOLDER` record of `src/data/conversation.js`. -/
structure Placeholder where
  id : String
  tokens : Nat
  deriving DecidableEq

/-- `TOTAL_BUDGET` from `src/data/conversation.js`. -/
def TOTAL_BUDGET : Nat := 8000

/-- `CHUNK_TOKENS` from `src/data/conversation.js`. -/
def CHUNK_TOKENS : Nat := 2000

/-- `FRESH_TAIL_COUNT` from `src/data/conversation.js`. -/
def FRESH_TAIL_COUNT : Nat := 4

/-- `CONDENSED_MIN_FANOUT` from `src/data/conversation.js`. -/
def CONDENSED_MIN_FANOUT : Nat := 4

/-- `MESSAGES[0]`. -/
def m1 : Message := ⟨"m1", "user", 180, "Turn 1", "Can you help me set up the OAuth2 flow?"⟩

/-- `MESSAGES[1]`. -/
def m2 : Message := ⟨"m2", "assistant", 420, "Turn 1", "Sure! First, install the oauth2-client package…"⟩

/-- `MESSAGES[2]`. -/
def m3 : Message := ⟨"m3", "user", 95, "Turn 2", "Getting a CORS error on the token endpoint."⟩

/-- `MESSAGES[3]`. -/
def m4 : Message := ⟨"m4", "assistant", 510, "Turn 2", "That CORS error usually means the redirect URI…"⟩

/-- `MESSAGES[4]`. -/
def m5 : Message := ⟨"m5", "user", 130, "Turn 3", "Now I need to persist the token to localStorage."⟩

/-- `MESSAGES[5]`. -/
def m6 : Message := ⟨"m6", "assistant", 480, "Turn 3", "Here\x27s a pattern for safe token storage…"⟩

/-- `MESSAGES[6]`. -/
def m7 : Message := ⟨"m7", "user", 110, "Turn 4", "The refresh token logic isn\x27t working."⟩

/-- `MESSAGES[7]`. -/
def m8 : Message := ⟨"m8", "assistant", 560, "Turn 4", "Let\x27s trace through the refresh flow step by step…"⟩

/-- `MESSAGES[8]`. -/
def m9 : Message := ⟨"m9", "user", 145, "Turn 5", "Can we add role-based access control next?"⟩

/-- `MESSAGES[9]`. -/
def m10 : Message := ⟨"m10", "assistant", 490, "Turn 5", "RBAC can be layered on top of your OAuth2 setup…"⟩

/-- `MESSAGES[10]`. -/
def m11 : Message := ⟨"m11", "user", 120, "Turn 6", "How should I structure the permissions matrix?"⟩

/-- `MESSAGES[11]`. -/
def m12 : Message := ⟨"m12", "assistant", 530, "Turn 6", "A resource × action matrix works well here…"⟩

/-- `MESSAGES[12]`. -/
def m13 : Message := ⟨"m13", "user", 100, "Turn 7", "Tests are failing after the RBAC middleware."⟩

/-- `MESSAGES[13]`. -/
def m14 : Message := ⟨"m14", "assistant", 440, "Turn 7", "The middleware ordering matters — auth before RBAC…"⟩

/-- `MESSAGES[14]`. -/
def m15 : Message := ⟨"m15", "user", 135, "Turn 8", "All green! Now let\x27s add audit logging."⟩

/-- `MESSAGES[15]`. -/
def m16 : Message := ⟨"m16", "assistant", 470, "Turn 8", "Audit logs should capture who, what, and when…"⟩

/-- `MESSAGES[16]`. -/
def m17 : Message := ⟨"m17", "user", 115, "Turn 9", "Can we add rate limiting to the API endpoints?"⟩

/-- `MESSAGES[17]`. -/
def m18 : Message := ⟨"m18", "assistant", 455, "Turn 9", "Rate limiting is best applied at the gateway layer…"⟩

/-- `MESSAGES[18]`. -/
def m19 : Message := ⟨"m19", "user", 130, "Turn 10", "How do we handle burst traffic gracefully?"⟩

/-- `MESSAGES[19]`. -/
def m20 : Message := ⟨"m20", "assistant", 480, "Turn 10", "A token-bucket algorithm handles bursts well…"⟩

/-- The `MESSAGES` array of `src/data/conversation.js`. -/
def MESSAGES : List Message :=
  [m1, m2, m3, m4, m5, m6, m7, m8, m9, m10,
   m11, m12, m13, m14, m15, m16, m17, m18, m19, m20]

/-- `SUMMARY_1`: Turns 1–4. -/
def SUMMARY_1 : Summary :=
  { id := "sum_01", kind := "summary", depth := 0, tokens := 320,
    timeRange := "Turns 1 – 4", descendantCount := 8,
    snippet := "OAuth2 setup: installed client, resolved CORS via redirect URI config, implemented token persistence with localStorage, debugged refresh token flow.",
    sourceIds := ["m1", "m2", "m3", "m4", "m5", "m6", "m7", "m8"] }

/-- `SUMMARY_2`: Turns 5–8. -/
def SUMMARY_2 : Summary :=
  { id := "sum_02", kind := "summary", depth := 0, tokens := 340,
    timeRange := "Turns 5 – 8", descendantCount := 8,
    snippet := "RBAC implementation: resource×action permissions matrix, middleware ordering fixed (auth→RBAC), tests passing. Audit logging added capturing actor, action, and timestamp.",
    sourceIds := ["m9", "m10", "m11", "m12", "m13", "m14", "m15", "m16"] }

/-- `SUMMARY_3`: Turns 9–12 (fast-forward). -/
def SUMMARY_3 : Summary :=
  { id := "sum_03", kind := "summary", depth := 0, tokens := 310,
    timeRange := "Turns 9 – 12", descendantCount := 8,
    snippet := "Rate limiting: token-bucket algorithm, burst handling at gateway. Input validation added across all API endpoints. Integration tests passing.",
    sourceIds := [] }

/-- `SUMMARY_4`: Turns 13–16 (fast-forward). -/
def SUMMARY_4 : Summary :=
  { id := "sum_04", kind := "summary", depth := 0, tokens := 325,
    timeRange := "Turns 13 – 16", descendantCount := 8,
    snippet := "CI/CD pipeline configured, staging environment ready. N+1 query in auth middleware fixed with eager loading. System is production-ready.",
    sourceIds := [] }

/-- `D1_SUMMARY`: depth-1 condensed node over `SUMMARY_1..4`. -/
def D1_SUMMARY : Summary :=
  { id := "sum_d1_01", kind := "condensed", depth := 1, tokens := 580,
    timeRange := "Turns 1 – 16", descendantCount := 32,
    snippet := "Project arc: OAuth2 + RBAC auth built from scratch, audit logging and rate limiting added, all inputs validated, CI/CD pipeline configured. N+1 query resolved. System deployed to staging.",
    sourceIds := ["sum_01", "sum_02", "sum_03", "sum_04"] }

/-- `SUMMARY_5`: Turns 17–20. -/
def SUMMARY_5 : Summary :=
  { id := "sum_05", kind := "summary", depth := 0, tokens := 305,
    timeRange := "Turns 17 – 20", descendantCount := 8,
    snippet := "Docker containerization: multi-stage builds, non-root user, health checks. docker-compose for local dev with hot reload.",
    sourceIds := [] }

/-- `SUMMARY_6`: Turns 21–24. -/
def SUMMARY_6 : Summary :=
  { id := "sum_06", kind := "summary", depth := 0, tokens := 330,
    timeRange := "Turns 21 – 24", descendantCount := 8,
    snippet := "Kubernetes deployment: Deployment + Service + Ingress manifests, HPA configured, rolling update strategy. Secrets managed via sealed-secrets.",
    sourceIds := [] }

/-- `SUMMARY_7`: Turns 25–28. -/
def SUMMARY_7 : Summary :=
  { id := "sum_07", kind := "summary", depth := 0, tokens := 315,
    timeRange := "Turns 25 – 28", descendantCount := 8,
    snippet := "Observability: Prometheus metrics endpoint, Grafana dashboards for latency/error rate/saturation. PagerDuty alert rules configured.",
    sourceIds := [] }

/-- `SUMMARY_8`: Turns 29–32. -/
def SUMMARY_8 : Summary :=
  { id := "sum_08", kind := "summary", depth := 0, tokens := 300,
    timeRange := "Turns 29 – 32", descendantCount := 8,
    snippet := "Performance profiling: p99 latency reduced 40% via query index and connection pool tuning. Flame graph identified N+1 in notification fanout.",
    sourceIds := [] }

/-- `D1_SUMMARY_2`: Turns 17–32. -/
def D1_SUMMARY_2 : Summary :=
  { id := "sum_d1_02", kind := "condensed", depth := 1, tokens := 545,
    timeRange := "Turns 17 – 32", descendantCount := 32,
    snippet := "Infrastructure phase: containerized with Docker, deployed to Kubernetes with HPA. Full observability stack (Prometheus + Grafana). p99 latency reduced 40%.",
    sourceIds := ["sum_05", "sum_06", "sum_07", "sum_08"] }

/-- `SUMMARY_9`: Turns 33–36. -/
def SUMMARY_9 : Summary :=
  { id := "sum_09", kind := "summary", depth := 0, tokens := 320,
    timeRange := "Turns 33 – 36", descendantCount := 8,
    snippet := "User management UI: invite flow, role assignment, team hierarchy. Bulk operations with optimistic updates. WCAG AA accessibility audit passing.",
    sourceIds := [] }

/-- `SUMMARY_10`: Turns 37–40. -/
def SUMMARY_10 : Summary :=
  { id := "sum_10", kind := "summary", depth := 0, tokens := 340,
    timeRange := "Turns 37 – 40", descendantCount := 8,
    snippet := "Real-time notifications: WebSocket server, presence tracking, per-user channels. Reconnect logic with exponential backoff. Redis pub/sub backend.",
    sourceIds := [] }

/-- `SUMMARY_11`: Turns 41–44. -/
def SUMMARY_11 : Summary :=
  { id := "sum_11", kind := "summary", depth := 0, tokens := 295,
    timeRange := "Turns 41 – 44", descendantCount := 8,
    snippet := "Data export: CSV/JSON/XLSX via background jobs, signed S3 URLs, email delivery. Export history page with re-download links.",
    sourceIds := [] }

/-- `SUMMARY_12`: Turns 45–48. -/
def SUMMARY_12 : Summary :=
  { id := "sum_12", kind := "summary", depth := 0, tokens := 310,
    timeRange := "Turns 45 – 48", descendantCount := 8,
    snippet := "Admin dashboard: usage analytics, feature flags, impersonation mode. Audit log viewer with full-text search. Role-gated behind SUPERADMIN.",
    sourceIds := [] }

/-- `D1_SUMMARY_3`: Turns 33–48. -/
def D1_SUMMARY_3 : Summary :=
  { id := "sum_d1_03", kind := "condensed", depth := 1, tokens := 560,
    timeRange := "Turns 33 – 48", descendantCount := 32,
    snippet := "Feature phase: user management UI, real-time notifications (WebSocket + Redis), data export pipeline, admin dashboard with audit log and feature flags.",
    sourceIds := ["sum_09", "sum_10", "sum_11", "sum_12"] }

/-- `SUMMARY_13`: Turns 49–52. -/
def SUMMARY_13 : Summary :=
  { id := "sum_13", kind := "summary", depth := 0, tokens := 285,
    timeRange := "Turns 49 – 52", descendantCount := 8,
    snippet := "Database optimization: partial indexes, BRIN index on event log, materialized views for analytics queries. Slow query log baseline established.",
    sourceIds := [] }

/-- `SUMMARY_14`: Turns 53–56. -/
def SUMMARY_14 : Summary :=
  { id := "sum_14", kind := "summary", depth := 0, tokens := 300,
    timeRange := "Turns 53 – 56", descendantCount := 8,
    snippet := "CDN and caching: CloudFront for static assets, stale-while-revalidate for API responses. Redis cache layer for user session and permission lookups.",
    sourceIds := [] }

/-- `SUMMARY_15`: Turns 57–60. -/
def SUMMARY_15 : Summary :=
  { id := "sum_15", kind := "summary", depth := 0, tokens := 315,
    timeRange := "Turns 57 – 60", descendantCount := 8,
    snippet := "Security hardening: penetration test findings resolved (IDOR, missing rate limit on password reset). CSP headers, HSTS preload, dependency audit clean.",
    sourceIds := [] }

/-- `SUMMARY_16`: Turns 61–64. -/
def SUMMARY_16 : Summary :=
  { id := "sum_16", kind := "summary", depth := 0, tokens := 290,
    timeRange := "Turns 61 – 64", descendantCount := 8,
    snippet := "Load testing: 10k concurrent users sustained at p99 < 200ms. Horizontal pod autoscaling validated. Runbook and on-call rotation documented.",
    sourceIds := [] }

/-- `D1_SUMMARY_4`: Turns 49–64. -/
def D1_SUMMARY_4 : Summary :=
  { id := "sum_d1_04", kind := "condensed", depth := 1, tokens := 530,
    timeRange := "Turns 49 – 64", descendantCount := 32,
    snippet := "Scaling phase: DB indexes and materialized views, CDN + Redis caching, security audit clean. Load tested to 10k concurrent users at p99 < 200ms.",
    sourceIds := ["sum_13", "sum_14", "sum_15", "sum_16"] }

/-- `D2_SUMMARY`: depth-2 condensed node over the four D1 nodes. -/
def D2_SUMMARY : Summary :=
  { id := "sum_d2_01", kind := "condensed", depth := 2, tokens := 840,
    timeRange := "Turns 1 – 64", descendantCount := 128,
    snippet := "Full project arc (64 turns): auth system (OAuth2 + RBAC), containerized and deployed to Kubernetes, observability and performance tuning, full feature set shipped, security hardened and load tested to production scale.",
    sourceIds := ["sum_d1_01", "sum_d1_02", "sum_d1_03", "sum_d1_04"] }

/-- `FRESH_TAIL_PLACEHOLDER` from `src/data/conversation.js`. -/
def FRESH_TAIL_PLACEHOLDER : Placeholder := ⟨"fresh-placeholder", 480⟩

/-- `FULL_DAG_SUMMARIES` from `CompactionScene` (the d2 node, the four d1
nodes, and the sixteen depth-0 summaries). -/
def FULL_DAG_SUMMARIES : List Summary :=
  [SUMMARY_1, SUMMARY_2, SUMMARY_3, SUMMARY_4,
   SUMMARY_5, SUMMARY_6, SUMMARY_7, SUMMARY_8,
   SUMMARY_9, SUMMARY_10, SUMMARY_11, SUMMARY_12,
   SUMMARY_13, SUMMARY_14, SUMMARY_15, SUMMARY_16,
   D1_SUMMARY, D1_SUMMARY_2, D1_SUMMARY_3, D1_SUMMARY_4,
   D2_SUMMARY]

/-- A context item of the panel: the `{ type, data }` wrappers built by
`msgItem`, `sumItem` and `ftItem` in `CompactionScene`. -/
inductive Item where
  | message (data : Message)
  | summary (data : Summary)
  | fresh (data : Placeholder)
  deriving DecidableEq

/-- The `i.data.id` accessor used by the scene handlers. -/
def Item.dataId : Item → String
  | .message m => m.id
  | .summary s => s.id
  | .fresh p => p.id

/-- The `i.data.tokens` accessor (`Option` models the JS `?? 0` fallback
in `sumTokens`; every fixture item carries a `tokens` field). -/
def Item.dataTokens : Item → Option Nat
  | .message m => some m.tokens
  | .summary s => some s.tokens
  | .fresh p => some p.tokens

/-- Test for `item.type === 'message'`. -/
def Item.isMessage : Item → Bool
  | .message _ => true
  | _ => false

/-- Test for `item.type === 'fresh-placeholder'`. -/
def Item.isFreshPlaceholder : Item → Bool
  | .fresh _ => true
  | _ => false

/-- The `msgItem` helper of `CompactionScene`. -/
def msgItem (m : Message) : Item := .message m

/-- The `sumItem` helper of `CompactionScene`. -/
def sumItem (s : Summary) : Item := .summary s

/-- The `ftItem` constant of `CompactionScene`. -/
def ftItem : Item := .fresh FRESH_TAIL_PLACEHOLDER

/-- The `sumTokens` helper of `CompactionScene`:
`items.reduce((acc, i) => acc + (i.data.tokens ?? 0), 0)`. -/
def sumTokens (items : List Item) : Nat :=
  items.foldl (fun acc i => acc + (i.dataTokens.getD 0)) 0

/-- The `{ items, summaries }` record returned by `itemsForStep`. -/
structure StepTarget where
  items : List Item
  summaries : List Summary
  deriving DecidableEq

/-- The `itemsForStep` switch of `CompactionScene`.  JS `switch` cases
that share one body (`case 3: case 4:` and `case 12: … case 20:`) become
a disjunctive condition; the `default` arm returns empty lists. -/
def itemsForStep (s : Int) : StepTarget :=
  if s = 0 then ⟨[], []⟩
  else if s = 1 then ⟨[m1, m2, m3, m4].map msgItem, []⟩
  else if s = 2 then ⟨[m1, m2, m3, m4, m5, m6, m7, m8].map msgItem, []⟩
  else if s = 3 ∨ s = 4 then
    ⟨[m1, m2, m3, m4, m5, m6, m7, m8, m9, m10, m11, m12].map msgItem, []⟩
  else if s = 5 then
    ⟨[sumItem SUMMARY_1, msgItem m9, msgItem m10, msgItem m11, msgItem m12],
     [SUMMARY_1]⟩
  else if s = 6 then
    ⟨[sumItem SUMMARY_1,
      msgItem m9, msgItem m10, msgItem m11, msgItem m12,
      msgItem m13, msgItem m14, msgItem m15, msgItem m16],
     [SUMMARY_1]⟩
  else if s = 7 then
    ⟨[sumItem SUMMARY_1,
      msgItem m9, msgItem m10, msgItem m11, msgItem m12,
      msgItem m13, msgItem m14, msgItem m15, msgItem m16,
      msgItem m17, msgItem m18, msgItem m19, msgItem m20],
     [SUMMARY_1]⟩
  else if s = 8 then
    ⟨[sumItem SUMMARY_1, sumItem SUMMARY_2,
      msgItem m17, msgItem m18, msgItem m19, msgItem m20],
     [SUMMARY_1, SUMMARY_2]⟩
  else if s = 9 then
    ⟨[sumItem SUMMARY_1, sumItem SUMMARY_2, sumItem SUMMARY_3,
      sumItem SUMMARY_4, ftItem],
     [SUMMARY_1, SUMMARY_2, SUMMARY_3, SUMMARY_4]⟩
  else if s = 10 then
    ⟨[sumItem D1_SUMMARY, ftItem],
     [SUMMARY_1, SUMMARY_2, SUMMARY_3, SUMMARY_4, D1_SUMMARY]⟩
  else if s = 11 then
    ⟨[sumItem D2_SUMMARY, ftItem], FULL_DAG_SUMMARIES⟩
  else if s = 12 ∨ s = 13 ∨ s = 14 ∨ s = 15 ∨ s = 16 ∨ s = 17 ∨ s = 18
          ∨ s = 19 ∨ s = 20 then
    ⟨[sumItem D2_SUMMARY, ftItem], FULL_DAG_SUMMARIES⟩
  else ⟨[], []⟩

/-- The tool views set by `applyStep` for steps 13–19. -/
inductive ToolView where
  | overview
  | describe
  | grep
  | expand
  deriving DecidableEq

/-- A pending `gsap.delayedCall` pushed onto `staggerQueue.current` by
`applyStep`: firing it appends `item` to the items list.  `step` records
which step application scheduled it. -/
structure StaggerCall where
  step : Int
  item : Item
  deriving DecidableEq

/-- The state of `CompactionScene`: the `useState` cells (`step`, `items`,
`summaries`, `compacting`, `fastForward`, `toolView`, `expandPhase`,
`sectionCActive`) together with the `useRef` cells (`prevStepRef`,
`staggerQueue`, `sum3Added`, `sum4Added`). -/
structure CompState where
  step : Int
  items : List Item
  summaries : List Summary
  compacting : Bool
  fastForward : Bool
  toolView : Option ToolView
  expandPhase : Nat
  sectionCActive : Bool
  prevStep : Int
  staggerQueue : List StaggerCall
  sum3Added : Bool
  sum4Added : Bool
  deriving DecidableEq

/-- The initial `CompactionScene` state (`useState` initialisers and
`prevStepRef = useRef(-1)`). -/
def initCompState : CompState :=
  { step := 0, items := [], summaries := [], compacting := false,
    fastForward := false, toolView := none, expandPhase := 0,
    sectionCActive := false, prevStep := -1, staggerQueue := [],
    sum3Added := false, sum4Added := false }

/-- The `(toolView, expandPhase)` pair assigned by the step-driven
if-chain of `applyStep` (steps 13–19; step 20 and all others reset to
`(null, 0)`). -/
def toolViewFor (s : Int) : Option ToolView × Nat :=
  if s = 13 then (some .overview, 0)
  else if s = 14 then (some .describe, 0)
  else if s = 15 then (some .grep, 0)
  else if s = 16 then (some .expand, 1)
  else if s = 17 then (some .expand, 2)
  else if s = 18 then (some .expand, 3)
  else if s = 19 then (some .expand, 3)
  else if s = 20 then (none, 0)
  else (none, 0)

/-- The `applyStep` callback of `CompactionScene`.  It first kills every
pending stagger timer, records `prevStepRef`, applies the unconditional
state updates, and then either replays a collapse animation (whose
`onComplete` — modelled as completing immediately — installs
`itemsForStep` of the target step), or installs the target items, with
multi-item forward additions going through the stagger queue. -/
def compApplyStep (st : CompState) (s : Int) : CompState :=
  let st0 := { st with staggerQueue := [] }
  let prev := st0.prevStep
  let st1 := { st0 with
    prevStep := s, step := s, fastForward := false,
    compacting := s == 4 || s == 7,
    toolView := (toolViewFor s).1, expandPhase := (toolViewFor s).2,
    sectionCActive := s == 11 || s == 12 }
  if s = 5 ∧ prev < 5 then
    { st1 with
      compacting := false,
      items := (itemsForStep 5).items, summaries := (itemsForStep 5).summaries }
  else if s = 8 ∧ prev < 8 then
    { st1 with
      compacting := false,
      items := (itemsForStep 8).items, summaries := (itemsForStep 8).summaries }
  else if s = 10 ∧ prev = 9 then
    { st1 with
      items := (itemsForStep 10).items, summaries := (itemsForStep 10).summaries }
  else
    let t := itemsForStep s
    let st2 := { st1 with summaries := t.summaries }
    if prev < s ∧ 0 ≤ prev then
      let prevIds := (itemsForStep prev).items.map Item.dataId
      let keep := t.items.filter (fun i => prevIds.contains i.dataId)
      let added := t.items.filter (fun i => !(prevIds.contains i.dataId))
      if 1 < added.length then
        { st2 with items := keep, staggerQueue := added.map (fun i => ⟨s, i⟩) }
      else
        { st2 with items := t.items }
    else
      { st2 with items := t.items }

/-- Firing the earliest pending stagger timer: the `delayedCall` body
`setItems((p) => [...p, item])`. -/
def fireStagger (st : CompState) : CompState :=
  match st.staggerQueue with
  | [] => st
  | c :: rest => { st with items := st.items ++ [c.item], staggerQueue := rest }

/-- Letting every pending stagger timer fire, in scheduling order.  This
is the settled state a step reaches once its animations finish. -/
def flushStaggers (st : CompState) : CompState :=
  { st with
    items := st.items ++ st.staggerQueue.map StaggerCall.item,
    staggerQueue := [] }

/-- The milestone fields the D0 scrub `onUpdate` handler reads and
writes: the `sum3Added`/`sum4Added` refs and the `summaries`/`items`
state. -/
structure ScrubCore where
  sum3Added : Bool
  sum4Added : Bool
  summaries : List Summary
  items : List Item
  deriving DecidableEq

/-- First block of `onUpdate`: at progress ≥ 0.4, summary 3 appears
(guarded against re-adding; the fresh-tail placeholder is re-appended
last). -/
def scrubUpd1 (p : ℚ) (c : ScrubCore) : ScrubCore :=
  if (0.4 : ℚ) ≤ p ∧ c.sum3Added = false then
    { c with
      sum3Added := true,
      summaries :=
        if c.summaries.any (fun t => t.id == SUMMARY_3.id) then c.summaries
        else c.summaries ++ [SUMMARY_3],
      items :=
        if c.items.any (fun i => i.dataId == SUMMARY_3.id) then c.items
        else c.items.filter (fun i => !i.isFreshPlaceholder)
              ++ [sumItem SUMMARY_3, ftItem] }
  else c

/-- Second block of `onUpdate`: dropping below 0.4 resets to the
two-summary state and clears both milestone flags. -/
def scrubUpd2 (p : ℚ) (c : ScrubCore) : ScrubCore :=
  if p < (0.4 : ℚ) ∧ c.sum3Added = true then
    { c with
      sum3Added := false, sum4Added := false,
      summaries := [SUMMARY_1, SUMMARY_2],
      items := [sumItem SUMMARY_1, sumItem SUMMARY_2, ftItem] }
  else c

/-- Third block of `onUpdate`: at progress ≥ 0.72, summary 4 appears. -/
def scrubUpd3 (p : ℚ) (c : ScrubCore) : ScrubCore :=
  if (0.72 : ℚ) ≤ p ∧ c.sum4Added = false then
    { c with
      sum4Added := true,
      summaries :=
        if c.summaries.any (fun t => t.id == SUMMARY_4.id) then c.summaries
        else c.summaries ++ [SUMMARY_4],
      items :=
        if c.items.any (fun i => i.dataId == SUMMARY_4.id) then c.items
        else c.items.filter (fun i => !i.isFreshPlaceholder)
              ++ [sumItem SUMMARY_4, ftItem] }
  else c

/-- Fourth block of `onUpdate`: dropping below 0.72 removes summary 4
from both lists. -/
def scrubUpd4 (p : ℚ) (c : ScrubCore) : ScrubCore :=
  if p < (0.72 : ℚ) ∧ c.sum4Added = true then
    { c with
      sum4Added := false,
      summaries := c.summaries.filter (fun t => !(t.id == SUMMARY_4.id)),
      items := c.items.filter (fun i => !(i.dataId == SUMMARY_4.id)) }
  else c

/-- The four blocks of `onUpdate` run in order within one invocation. -/
def scrubUpdateCore (p : ℚ) (c : ScrubCore) : ScrubCore :=
  scrubUpd4 p (scrubUpd3 p (scrubUpd2 p (scrubUpd1 p c)))

/-- The milestone fields of a full scene state. -/
def scrubCoreOf (st : CompState) : ScrubCore :=
  ⟨st.sum3Added, st.sum4Added, st.summaries, st.items⟩

/-- The scrub `onUpdate` handler as a step on the full scene state: it
reads and writes exactly the milestone fields. -/
def scrubUpdate (st : CompState) (p : ℚ) : CompState :=
  let c := scrubUpdateCore p (scrubCoreOf st)
  { st with
    sum3Added := c.sum3Added, sum4Added := c.sum4Added,
    summaries := c.summaries, items := c.items }

/-- The scrub trigger's `onEnter`: reset the milestone flags, enter
fast-forward at pseudo-step `-1`, and install the two-summary state. -/
def scrubEnter (st : CompState) : CompState :=
  { st with
    sum3Added := false, sum4Added := false, fastForward := true,
    step := -1, compacting := false,
    items := [sumItem SUMMARY_1, sumItem SUMMARY_2, ftItem],
    summaries := [SUMMARY_1, SUMMARY_2] }

/-- The scrub trigger's `onLeaveBack`: reset the flags and reinstall the
step-8 state. -/
def scrubLeaveBack (st : CompState) : CompState :=
  { st with
    sum3Added := false, sum4Added := false, fastForward := false,
    items := (itemsForStep 8).items, summaries := (itemsForStep 8).summaries }

/-- The scrub trigger's `onLeave`: only clears fast-forward. -/
def scrubLeave (st : CompState) : CompState :=
  { st with fastForward := false }

/-- The operations of `CompactionScene` on its state: step applications,
a pending stagger timer firing, and the scrub handlers. -/
inductive SceneOp where
  | applyStep (s : Int)
  | fireStagger
  | scrubEnter
  | scrubUpdate (p : ℚ)
  | scrubLeave
  | scrubLeaveBack

/-- Dispatch one scene operation. -/
def compStep (st : CompState) : SceneOp → CompState
  | .applyStep s => compApplyStep st s
  | .fireStagger => fireStagger st
  | .scrubEnter => scrubEnter st
  | .scrubUpdate p => scrubUpdate st p
  | .scrubLeave => scrubLeave st
  | .scrubLeaveBack => scrubLeaveBack st

/-- The module-level bindings of `src/data/conversation.js`, viewed as a
store of heap objects that the scene handlers could in principle mutate.
Every read the handlers perform goes to these objects; the handlers are
translated as functions that thread the store through unchanged because
the JS code only ever builds fresh arrays (`map`/`filter`/spread) and
never assigns into the fixture objects or arrays. -/
structure FixtureStore where
  messages : List Message
  sum1 : Summary
  sum2 : Summary
  sum3 : Summary
  sum4 : Summary
  sum5 : Summary
  sum6 : Summary
  sum7 : Summary
  sum8 : Summary
  sum9 : Summary
  sum10 : Summary
  sum11 : Summary
  sum12 : Summary
  sum13 : Summary
  sum14 : Summary
  sum15 : Summary
  sum16 : Summary
  d1 : Summary
  d1b : Summary
  d1c : Summary
  d1d : Summary
  d2 : Summary
  freshTail : Placeholder
  totalBudget : Nat
  chunkTokens : Nat
  freshTailCount : Nat
  condensedMinFanout : Nat
  deriving DecidableEq

/-- The store as initialised at module load time. -/
def moduleStore : FixtureStore :=
  { messages := MESSAGES,
    sum1 := SUMMARY_1, sum2 := SUMMARY_2, sum3 := SUMMARY_3,
    sum4 := SUMMARY_4, sum5 := SUMMARY_5, sum6 := SUMMARY_6,
    sum7 := SUMMARY_7, sum8 := SUMMARY_8, sum9 := SUMMARY_9,
    sum10 := SUMMARY_10, sum11 := SUMMARY_11, sum12 := SUMMARY_12,
    sum13 := SUMMARY_13, sum14 := SUMMARY_14, sum15 := SUMMARY_15,
    sum16 := SUMMARY_16,
    d1 := D1_SUMMARY, d1b := D1_SUMMARY_2, d1c := D1_SUMMARY_3,
    d1d := D1_SUMMARY_4, d2 := D2_SUMMARY,
    freshTail := FRESH_TAIL_PLACEHOLDER,
    totalBudget := TOTAL_BUDGET, chunkTokens := CHUNK_TOKENS,
    freshTailCount := FRESH_TAIL_COUNT,
    condensedMinFanout := CONDENSED_MIN_FANOUT }

/-- One scene operation under store-passing semantics. -/
def storeStep (c : FixtureStore × CompState) (op : SceneOp) :
    FixtureStore × CompState :=
  (c.1, compStep c.2 op)

/-- Running a sequence of scene operations under store-passing
semantics. -/
def runOps (c : FixtureStore × CompState) (ops : List SceneOp) :
    FixtureStore × CompState :=
  ops.foldl storeStep c

/-- `TRAD_BUDGET` from `TraditionalScene`. -/
def TRAD_BUDGET : Nat := 2000

/-- `TRAD_THRESHOLD` from `TraditionalScene`. -/
def TRAD_THRESHOLD : Nat := 1600

/-- `T_MESSAGES[0]`. -/
def tm1 : Message := ⟨"tm1", "user", 140, "Turn 1", "Help me plan a 3-week solo trip to Japan. My budget is $3,000."⟩

/-- `T_MESSAGES[1]`. -/
def tm2 : Message := ⟨"tm2", "assistant", 520, "Turn 1", "Great! With $3,000 you can do this comfortably. Here\x27s a day-by-day breakdown…"⟩

/-- `T_MESSAGES[2]`. -/
def tm3 : Message := ⟨"tm3", "user", 85, "Turn 2", "Which cities should I prioritize? I love temples and local food."⟩

/-- `T_MESSAGES[3]`. -/
def tm4 : Message := ⟨"tm4", "assistant", 490, "Turn 2", "Focus on Kyoto for temples, Tokyo for food, Osaka for both. The JR Pass…"⟩

/-- `T_MESSAGES[4]`. -/
def tm5 : Message := ⟨"tm5", "user", 95, "Turn 3", "What about accommodation? Should I use hostels or capsule hotels?"⟩

/-- `T_MESSAGES[5]`. -/
def tm6 : Message := ⟨"tm6", "assistant", 380, "Turn 3", "Capsule hotels are ideal for solo travellers. Budget ¥3,000–5,000 per night…"⟩

/-- The `T_MESSAGES` array of `TraditionalScene`. -/
def T_MESSAGES : List Message := [tm1, tm2, tm3, tm4, tm5, tm6]

/-- The flat `TRAD_SUMMARY` record of `TraditionalScene`. -/
structure TradSummary where
  tokens : Nat
  snippet : String
  deriving DecidableEq

/-- `TRAD_SUMMARY` from `TraditionalScene`. -/
def TRAD_SUMMARY : TradSummary :=
  ⟨340, "User planning 3-week solo Japan trip with $3,000 budget. Discussed city priorities (Kyoto for temples, Tokyo for food, Osaka for both), JR Pass for transport, and accommodation (capsule hotels preferred at ¥3–5k/night)."⟩

/-- The pending timer `TraditionalScene.applyStep` schedules when it
enters step 2 going forward: the `gsap.delayedCall(0.7, …)` whose body
clears the banner, collapses the message pills, and shows the flat
summary card.  The scene stores no handle to it and never kills it. -/
inductive TradTimer where
  | summarizeDelay
  deriving DecidableEq

/-- The state of `TraditionalScene`: the `useState` cells (`step`,
`items`, `showSummary`, `summarizing`), the `prevStepRef` ref, and the
list of pending `delayedCall` timers. -/
structure TradState where
  step : Nat
  items : List Message
  showSummary : Bool
  summarizing : Bool
  prevStep : Nat
  pending : List TradTimer
  deriving DecidableEq

/-- The initial `TraditionalScene` state: the first two messages are
shown, nothing pending. -/
def tradInit : TradState :=
  { step := 0, items := T_MESSAGES.take 2, showSummary := false,
    summarizing := false, prevStep := 0, pending := [] }

/-- The `applyStep` callback of `TraditionalScene`
(src/components/TraditionalScene.jsx lines 156–193).  Note that no
branch removes anything from `pending`: the step-2 `delayedCall` is
scheduled by appending to the pending list and is never cancelled. -/
def tradApplyStep (st : TradState) (s : Nat) : TradState :=
  let prev := st.prevStep
  let st1 := { st with prevStep := s, step := s }
  if s = 0 then
    { st1 with
      items := T_MESSAGES.take 2, showSummary := false,
      summarizing := false }
  else if s = 1 then
    { st1 with
      items := T_MESSAGES, showSummary := false,
      summarizing := false }
  else if s = 2 then
    if prev < 2 then
      { st1 with
        summarizing := true,
        pending := st1.pending ++ [TradTimer.summarizeDelay] }
    else
      { st1 with items := [], showSummary := true, summarizing := false }
  else
    st1

/-- Firing the earliest pending Traditional timer: the `delayedCall`
body runs `setSummarizing(false)` and then the collapse animation's
`onComplete` (modelled as completing immediately) runs `setItems([])`
and `setShowSummary(true)`. -/
def tradFireTimer (st : TradState) : TradState :=
  match st.pending with
  | [] => st
  | _ :: rest =>
      { st with
        pending := rest, summarizing := false, items := [],
        showSummary := true }

/-- A role style entry of `ROLE_STYLES` in `MessagePill`. -/
structure RoleStyle where
  border : String
  label : String
  deriving DecidableEq

/-- `ROLE_STYLES.user`. -/
def ROLE_STYLES_user : RoleStyle := ⟨"var(--color-user)", "U"⟩

/-- `ROLE_STYLES.assistant`. -/
def ROLE_STYLES_assistant : RoleStyle := ⟨"var(--color-assistant)", "A"⟩

/-- `ROLE_STYLES.tool`. -/
def ROLE_STYLES_tool : RoleStyle := ⟨"var(--color-tool)", "T"⟩

/-- The `ROLE_STYLES` object lookup (a JS object keyed by role name). -/
def roleStyles (role : String) : Option RoleStyle :=
  if role = "user" then some ROLE_STYLES_user
  else if role = "assistant" then some ROLE_STYLES_assistant
  else if role = "tool" then some ROLE_STYLES_tool
  else none

/-- The style `MessagePill` renders with:
`ROLE_STYLES[message.role] ?? ROLE_STYLES.user`. -/
def messagePillStyle (m : Message) : RoleStyle :=
  (roleStyles m.role).getD ROLE_STYLES_user

/-- A depth meta entry of `DEPTH_META` in `SummaryPill`. -/
structure DepthMeta where
  color : String
  bg : String
  label : String
  deriving DecidableEq

/-- `DEPTH_META[0]`. -/
def depthMeta0 : DepthMeta :=
  ⟨"var(--color-summary)", "rgba(240,136,62,0.07)", "SUMMARY · DEPTH 0"⟩

/-- `DEPTH_META[1]`. -/
def depthMeta1 : DepthMeta :=
  ⟨"var(--color-summary-d1)", "rgba(255,123,114,0.07)", "SUMMARY · DEPTH 1"⟩

/-- `fallbackMeta` from `SummaryPill`. -/
def fallbackMeta : DepthMeta :=
  ⟨"var(--color-muted)", "rgba(125,133,144,0.07)", "SUMMARY"⟩

/-- The `DEPTH_META` object lookup (keys 0 and 1). -/
def depthMetaFor (d : Nat) : Option DepthMeta :=
  if d = 0 then some depthMeta0
  else if d = 1 then some depthMeta1
  else none

/-- The meta `SummaryPill` renders with:
`DEPTH_META[summary.depth] ?? fallbackMeta`. -/
def summaryPillMeta (s : Summary) : DepthMeta :=
  (depthMetaFor s.depth).getD fallbackMeta

/-- The clamped fill fraction of `TokenBudget`:
`Math.min(used / total, 1)`. -/
def tokenBudgetPct (used total : ℚ) : ℚ :=
  min (used / total) 1

/-- The values `TokenBudget` renders: the used/total numbers of the
label row, the clamped fraction, and the rounded percentage used for
both the label and the fill width. -/
structure BudgetView where
  usedShown : Nat
  totalShown : Nat
  pct : ℚ
  pctDisplay : ℤ
  deriving DecidableEq

/-- The `TokenBudget` component on numeric inputs. -/
def tokenBudgetView (used total : Nat) : BudgetView :=
  { usedShown := used, totalShown := total,
    pct := tokenBudgetPct used total,
    pctDisplay := round (tokenBudgetPct used total * 100) }

/-- The compaction banner text of `CompactionScene` (`bannerText`),
selected by the current step. -/
def bannerTextFor (step : Int) : String :=
  if step ≤ 5 then
    "⚡  Compaction triggered — Turns 1–4 (2,485 tok) outside fresh tail exceed the 2,000-token threshold"
  else
    "⚡  Compaction triggered — Turns 5–8 (2,430 tok) outside fresh tail exceed the 2,000-token threshold"

/-- The `dagHighlightIds` memo of `CompactionScene`. -/
def dagHighlightIdsFor : Option ToolView → Nat → List String
  | some .describe, _ => ["sum_d2_01"]
  | some .grep, _ => ["sum_d2_01", "sum_d1_01", "sum_01", "msgs_sum_01"]
  | some .expand, ph =>
      if 3 ≤ ph then ["sum_d2_01", "sum_d1_01", "sum_01"]
      else if 2 ≤ ph then ["sum_d2_01", "sum_d1_01", "sum_01"]
      else if 1 ≤ ph then ["sum_d2_01", "sum_d1_01"]
      else []
  | _, _ => []

/-- The state blob `CompactionScene` reports through `onStateChange`. -/
structure LcmReport where
  step : Int
  items : List Item
  summaries : List Summary
  usedTokens : Nat
  compacting : Bool
  fastForward : Bool
  showFreshTail : Bool
  toolView : Option ToolView
  expandPhase : Nat
  dagHighlightIds : List String
  bannerText : String
  sectionCActive : Bool
  deriving DecidableEq

/-- Building the `onStateChange` payload from the scene state
(`usedTokens = sumTokens(items)`, `showFreshTail = step >= 3 ||
fastForward`). -/
def lcmReport (st : CompState) : LcmReport :=
  { step := st.step, items := st.items, summaries := st.summaries,
    usedTokens := sumTokens st.items, compacting := st.compacting,
    fastForward := st.fastForward,
    showFreshTail := decide (3 ≤ st.step) || st.fastForward,
    toolView := st.toolView, expandPhase := st.expandPhase,
    dagHighlightIds := dagHighlightIdsFor st.toolView st.expandPhase,
    bannerText := bannerTextFor st.step,
    sectionCActive := st.sectionCActive }

/-- The state blob `TraditionalScene` reports through `onStateChange`. -/
structure TradReport where
  step : Nat
  items : List Message
  showSummary : Bool
  summarizing : Bool
  usedTokens : Nat
  deriving DecidableEq

/-- Building the Traditional `onStateChange` payload (`usedTokens` is the
summary's token count once the flat summary is shown, otherwise the sum
of the visible messages). -/
def tradReport (st : TradState) : TradReport :=
  { step := st.step, items := st.items, showSummary := st.showSummary,
    summarizing := st.summarizing,
    usedTokens :=
      if st.showSummary then TRAD_SUMMARY.tokens
      else st.items.foldl (fun a m => a + m.tokens) 0 }

/-- The fresh-tail id set computed by `SharedPanel` (lines 210–212):
when the fresh tail is shown, the last `FRESH_TAIL_COUNT` ids of the raw
message items; otherwise empty.  (`showFreshTail` here stands for the
conjunction `isLcm && lcmShowFreshTail` of the source.) -/
def freshIdsOf (showFreshTail : Bool) (items : List Item) : List String :=
  if showFreshTail then
    let raw := (items.filter Item.isMessage).map Item.dataId
    raw.drop (raw.length - FRESH_TAIL_COUNT)
  else []

/-- Whether an item is rendered with the FRESH TAIL badge: only
`MessagePill` receives `isFresh={freshIds.has(item.data.id)}`; summary
pills and the placeholder never do. -/
def itemBadge (freshIds : List String) : Item → Bool
  | .message m => freshIds.contains m.id
  | _ => false

/-- Events in the life of `AgentationOverlay`: its mount effect running,
and the dynamic `import("agentation")` resolving.  The import is only
started when `import.meta.env.DEV` holds, so its resolution only sets
the component when `isDev` is true. -/
inductive OverlayEvent where
  | effectRun
  | importResolved
  deriving DecidableEq

/-- One overlay event acting on the `Comp` state cell. -/
def overlayStep (isDev : Bool) (comp : Option Unit) :
    OverlayEvent → Option Unit
  | .effectRun => comp
  | .importResolved => if isDev then some () else comp

/-- The overlay's `Comp` cell after a sequence of events, starting from
`useState(null)`. -/
def overlayRun (isDev : Bool) (evs : List OverlayEvent) : Option Unit :=
  evs.foldl (overlayStep isDev) none

/-- The kinds of rendered nodes used to model the component tree. -/
inductive NodeKind where
  | mainRoot
  | hero
  | flexRow
  | panelColumn
  | narrationColumn
  | sharedPanel
  | tradBanner
  | lcmBanner
  | contextWindow
  | tokenBudget
  | itemsList
  | dagSection
  | dagPanel
  | dagSvg
  | toolSection
  | toolPanel
  | tradScene
  | lcmScene
  | overlay
  deriving DecidableEq

/-- What `AgentationOverlay` renders: `null` while `Comp` is unset,
otherwise the third-party toolbar component. -/
def overlayRender (comp : Option Unit) : Option NodeKind :=
  comp.map (fun _ => NodeKind.overlay)

/-- The inline style of the sticky panel column wrapper in `App`. -/
def panelColumnStyle : List (String × String) :=
  [("position", "sticky"), ("top", "0"),
   ("height", "var(--panel-sticky-height)"), ("zIndex", "10"),
   ("overflow", "visible")]

/-- The document-order node kinds rendered by `SharedPanel`: the two
banners, the context window (budget bar and item list), the DAG section
(the `DagPanel` with its `<svg>` appears when the scene is in LCM mode
with a non-empty summary list), and the tool section (the `ToolPanel`
appears when a tool view is active). -/
def sharedPanelKinds (showDag showTool : Bool) : List NodeKind :=
  [.sharedPanel, .tradBanner, .lcmBanner, .contextWindow, .tokenBudget,
   .itemsList, .dagSection]
  ++ (if showDag then [.dagPanel, .dagSvg] else [])
  ++ [.toolSection]
  ++ (if showTool then [.toolPanel] else [])

/-- The document-order node kinds rendered by `App`: hero, then the
unified flex row holding the sticky panel column (with the single
`SharedPanel`) and the narration column (`TraditionalScene` then
`CompactionScene`), then the dev-only overlay. -/
def appKinds (dev showDag showTool : Bool) : List NodeKind :=
  [.mainRoot, .hero, .flexRow, .panelColumn]
  ++ sharedPanelKinds showDag showTool
  ++ [.narrationColumn, .tradScene, .lcmScene]
  ++ (if dev then [.overlay] else [])

/-- The active scene, switched only by the scenes' activation
callbacks. -/
inductive Mode where
  | traditional
  | lcm
  deriving DecidableEq

/-- The state of `App`: the mode and the two state blobs last reported
by the scenes. -/
structure AppState where
  mode : Mode
  tradState : Option TradReport
  lcmState : Option LcmReport

/-- `handleTradState`: store the Traditional scene's report. -/
def handleTradState (a : AppState) (r : TradReport) : AppState :=
  { a with tradState := some r }

/-- `handleLcmState`: store the LCM scene's report. -/
def handleLcmState (a : AppState) (r : LcmReport) : AppState :=
  { a with lcmState := some r }

/-- `activateTrad`: switch the panel to traditional mode. -/
def activateTrad (a : AppState) : AppState :=
  { a with mode := .traditional }

/-- `activateLcm`: switch the panel to LCM mode and clear the stale
Traditional state. -/
def activateLcm (a : AppState) : AppState :=
  { a with mode := .lcm, tradState := none }

/-- The props `App` passes to `SharedPanel`. -/
def sharedPanelProps (a : AppState) :
    Mode × Option TradReport × Option LcmReport :=
  (a.mode, a.tradState, a.lcmState)

/-- Lookup of a fixture summary node by id (over the full DAG). -/
def summaryById (i : String) : Option Summary :=
  FULL_DAG_SUMMARIES.find? (fun t => t.id == i)

/-- Lookup of a fixture message by id. -/
def messageById (i : String) : Option Message :=
  MESSAGES.find? (fun m => m.id == i)

/-- The sum of the `descendantCount`s of the nodes named by a summary's
`sourceIds`. -/
def descendantSumOf (c : Summary) : Nat :=
  (c.sourceIds.map (fun i => ((summaryById i).map Summary.descendantCount).getD 0)).sum

/-- The summed tokens of the messages named by a summary's
`sourceIds`. -/
def sourceTokensOf (c : Summary) : Nat :=
  (c.sourceIds.map (fun i => ((messageById i).map Message.tokens).getD 0)).sum

/-- Membership of an item among the fixture constants exported by
`src/data/conversation.js`. -/
def itemIsFixture : Item → Bool
  | .message m => decide (m ∈ MESSAGES)
  | .summary s => decide (s ∈ FULL_DAG_SUMMARIES)
  | .fresh p => decide (p = FRESH_TAIL_PLACEHOLDER)

/-- Membership of a summary among the fixture summary constants. -/
def summaryIsFixture (s : Summary) : Bool :=
  decide (s ∈ FULL_DAG_SUMMARIES)

/-- The `default` arm of the `itemsForStep` switch: any step outside
`0..20` yields empty lists. -/
lemma itemsForStep_out_of_range (s : Int) (h : s < 0 ∨ 20 < s) :
    itemsForStep s = ⟨[], []⟩ := by
  unfold itemsForStep
  have n0 : ¬(s = 0) := by omega
  have n1 : ¬(s = 1) := by omega
  have n2 : ¬(s = 2) := by omega
  have n34 : ¬(s = 3 ∨ s = 4) := by omega
  have n5 : ¬(s = 5) := by omega
  have n6 : ¬(s = 6) := by omega
  have n7 : ¬(s = 7) := by omega
  have n8 : ¬(s = 8) := by omega
  have n9 : ¬(s = 9) := by omega
  have n10 : ¬(s = 10) := by omega
  have n11 : ¬(s = 11) := by omega
  have n12 : ¬(s = 12 ∨ s = 13 ∨ s = 14 ∨ s = 15 ∨ s = 16 ∨ s = 17 ∨ s = 18
      ∨ s = 19 ∨ s = 20) := by omega
  rw [if_neg n0, if_neg n1, if_neg n2, if_neg n34, if_neg n5, if_neg n6,
      if_neg n7, if_neg n8, if_neg n9, if_neg n10, if_neg n11, if_neg n12]

/-- C1.  `itemsForStep` is a fixed function of the step integer alone
(determinism is definitional: it is a pure function of `s`): every item
it returns is one of the fixture constants of
`src/data/conversation.js` (a `MESSAGES` entry, one of the summary
nodes, or the fresh-tail placeholder), every summary it returns is a
fixture summary node, and any step outside `0..20` yields empty
lists. -/
theorem itemsForStep_fixture_and_range (s : Int) :
    ((itemsForStep s).items.all itemIsFixture
      && (itemsForStep s).summaries.all summaryIsFixture) = true
    ∧ ((0 ≤ s ∧ s ≤ 20) ∨ itemsForStep s = ⟨[], []⟩) := by
  by_cases hin : 0 ≤ s ∧ s ≤ 20
  · obtain ⟨h1, h2⟩ := hin
    refine ⟨?_, Or.inl ⟨h1, h2⟩⟩
    interval_cases s <;> decide
  · have h : s < 0 ∨ 20 < s := by omega
    rw [itemsForStep_out_of_range s h]
    exact ⟨rfl, Or.inr rfl⟩

/-- C10.  The fixture DAG is internally consistent: every condensed node's
`descendantCount` equals the sum of the `descendantCount`s of the nodes
named by its `sourceIds` (each D1 node 32 = 4 × 8, the D2 node
128 = 4 × 32); the summed source-message tokens of `SUMMARY_1` and
`SUMMARY_2` are 2,485 and 2,430, each exceeding `CHUNK_TOKENS` = 2,000;
and those figures are the ones embedded in the compaction banner
text. -/
theorem fixture_dag_consistency :
    (FULL_DAG_SUMMARIES.all
      (fun c => c.kind != "condensed" || c.descendantCount == descendantSumOf c)) = true
    ∧ descendantSumOf D1_SUMMARY = 32 ∧ descendantSumOf D2_SUMMARY = 128
    ∧ sourceTokensOf SUMMARY_1 = 2485
    ∧ sourceTokensOf SUMMARY_2 = 2430
    ∧ CHUNK_TOKENS < sourceTokensOf SUMMARY_1
    ∧ CHUNK_TOKENS < sourceTokensOf SUMMARY_2
    ∧ List.IsInfix "2,485".toList (bannerTextFor 5).toList
    ∧ List.IsInfix "2,430".toList (bannerTextFor 6).toList := by
  refine ⟨by decide, by decide, by decide, by decide, by decide,
    by decide, by decide, by decide, by decide⟩

/-- C5.  Rendering is total on the scripted states: `MessagePill` falls
back to the user style on any role outside user/assistant/tool,
`SummaryPill` falls back to the generic meta on any depth other than 0
and 1 — which happens for the depth-2 summary shown in the context
window at steps 11–20 — and `TokenBudget` clamps its fill fraction to at
most 1 so the displayed percentage never exceeds 100 even when `used`
exceeds `total`.  (Totality itself is definitional: every render model
in this file is a total function.) -/
theorem render_total_fallbacks :
    (∀ m : Message, m.role ∉ (["user", "assistant", "tool"] : List String) →
      messagePillStyle m = ROLE_STYLES_user)
    ∧ (∀ s : Summary, s.depth ≠ 0 → s.depth ≠ 1 →
        summaryPillMeta s = fallbackMeta)
    ∧ D2_SUMMARY.depth = 2
    ∧ summaryPillMeta D2_SUMMARY = fallbackMeta
    ∧ (∀ s : Int, 11 ≤ s → s ≤ 20 → sumItem D2_SUMMARY ∈ (itemsForStep s).items)
    ∧ (∀ used total : ℚ, tokenBudgetPct used total ≤ 1)
    ∧ (∀ used total : Nat, (tokenBudgetView used total).pctDisplay ≤ 100) := by
  refine ⟨?_, ?_, by decide, by decide, ?_, ?_, ?_⟩
  · intro m h
    simp only [List.mem_cons, List.not_mem_nil, or_false, not_or] at h
    obtain ⟨h1, h2, h3⟩ := h
    unfold messagePillStyle roleStyles
    rw [if_neg h1, if_neg h2, if_neg h3]
    rfl
  · intro s h0 h1
    unfold summaryPillMeta depthMetaFor
    rw [if_neg h0, if_neg h1]
    rfl
  · intro s h1 h2
    interval_cases s <;> decide
  · intro used total
    exact min_le_right _ _
  · intro used total
    show round (tokenBudgetPct (used : ℚ) (total : ℚ) * 100) ≤ 100
    have hp : tokenBudgetPct (used : ℚ) (total : ℚ) ≤ 1 := min_le_right _ _
    have h2 : tokenBudgetPct (used : ℚ) (total : ℚ) * 100 + 1 / 2
        ≤ (100 : ℚ) + 1 / 2 := by linarith
    have h3 : (⌊(100 : ℚ) + 1 / 2⌋ : ℤ) = 100 := by
      rw [Int.floor_eq_iff] ; norm_num
    calc round (tokenBudgetPct (used : ℚ) (total : ℚ) * 100)
        = ⌊tokenBudgetPct (used : ℚ) (total : ℚ) * 100 + 1 / 2⌋ := round_eq _
      _ ≤ ⌊(100 : ℚ) + 1 / 2⌋ := Int.floor_le_floor h2
      _ = 100 := h3

/-- Closed instance of `render_total_fallbacks`, discharging each
hypothesis at a concrete input: a `system`-role message takes the user
style, the depth-2 node takes the generic meta and sits in the step-11
context window, and an over-budget bar shows at most 100%. -/
theorem render_total_fallbacks_witness :
    messagePillStyle ⟨"x1", "system", 10, "Turn 0", "free-form role"⟩ = ROLE_STYLES_user
    ∧ summaryPillMeta D2_SUMMARY = fallbackMeta
    ∧ sumItem D2_SUMMARY ∈ (itemsForStep 11).items
    ∧ tokenBudgetPct 9000 8000 ≤ 1
    ∧ (tokenBudgetView 9000 8000).pctDisplay ≤ 100 := by
  refine ⟨render_total_fallbacks.1 _ (by decide),
    render_total_fallbacks.2.1 D2_SUMMARY (by decide) (by decide),
    render_total_fallbacks.2.2.2.2.1 11 (by omega) (by omega),
    render_total_fallbacks.2.2.2.2.2.1 9000 8000,
    render_total_fallbacks.2.2.2.2.2.2 9000 8000⟩

/-- C2, counterexample.  `TraditionalScene.applyStep` never cancels the
step-2 summarization `delayedCall`: entering step 2 going forward and
then re-triggering step 1 leaves the superseded timer pending, and when
it fires it empties the item list and shows the flat summary card even
though step 1 (all six messages, no summary card) was applied after it
was scheduled. -/
theorem trad_pending_timer_survives_retrigger :
    (tradApplyStep (tradApplyStep tradInit 2) 1).pending ≠ []
    ∧ (tradApplyStep (tradApplyStep tradInit 2) 1).showSummary = false
    ∧ (tradApplyStep (tradApplyStep tradInit 2) 1).items = T_MESSAGES
    ∧ (tradFireTimer (tradApplyStep (tradApplyStep tradInit 2) 1)).showSummary = true
    ∧ (tradFireTimer (tradApplyStep (tradApplyStep tradInit 2) 1)).items = [] := by
  refine ⟨by decide, by decide, by decide, by decide, by decide⟩

/-- C2, amended.  The cancellation that does exist: whenever
`CompactionScene.applyStep` applies a new step it first kills every
pending stagger timer, so after a step application the stagger queue
holds only timers scheduled by that very application — a staggered item
addition from a superseded step never fires.  (The Traditional scene's
step-2 summarization delay, by contrast, survives re-triggering; see the
counterexample.) -/
theorem comp_applyStep_cancels_previous_staggers (st : CompState) (s : Int) :
    ((compApplyStep st s).staggerQueue.all (fun c => c.step == s)) = true := by
  simp only [compApplyStep]
  split_ifs <;> simp [List.all_eq_true] ;
    exact fun c i _ _ hc => by subst hc; rfl

/-- C4.  The fixture data has no lifecycle beyond being read at module
load time: under store-passing semantics, any sequence of scene
operations (step applications via `itemsForStep`, stagger firings, and
the scrub handlers) leaves the store of module-level fixture values
untouched — in particular a run starting from the store as loaded ends
with `MESSAGES`, every summary node, and the placeholder exactly as
written in `src/data/conversation.js`.  The handlers only build fresh
lists; none of their translations writes the store component. -/
theorem scene_ops_preserve_fixture_store (σ : FixtureStore) (st : CompState)
    (ops : List SceneOp) :
    (runOps (σ, st) ops).1 = σ
    ∧ (runOps (moduleStore, st) ops).1.messages = MESSAGES := by
  have key : ∀ (τ : FixtureStore) (st0 : CompState),
      (runOps (τ, st0) ops).1 = τ := by
    induction ops with
    | nil => exact fun τ st0 => rfl
    | cons op rest ih =>
        intro τ st0
        show (runOps (storeStep (τ, st0) op) rest).1 = τ
        exact ih τ (compStep st0 op)
  exact ⟨key σ st, by rw [key moduleStore st]; rfl⟩

/-- Unfolding of the `sumTokens` fold. -/
lemma sumTokens_foldl (l : List Item) : ∀ n : Nat,
    l.foldl (fun acc i => acc + i.dataTokens.getD 0) n
      = n + (l.map (fun i => i.dataTokens.getD 0)).sum := by
  induction l with
  | nil => intro n; simp
  | cons a t ih =>
      intro n
      simp only [List.foldl_cons, List.map_cons, List.sum_cons, ih]
      omega

/-- `sumTokens` is invariant under permutation of the item list. -/
lemma sumTokens_perm {l₁ l₂ : List Item} (h : List.Perm l₁ l₂) :
    sumTokens l₁ = sumTokens l₂ := by
  unfold sumTokens
  rw [sumTokens_foldl, sumTokens_foldl, (h.map _).sum_eq]

/-- C3.  For every narration step `s`, once the step's staggered
additions have fired, the token total handed to the budget bar (the
`used` figure `TokenBudget` renders) equals `sumTokens` of
`itemsForStep s` — in the stagger branch the displayed list is the kept
items followed by the added items, a permutation of the target list —
and at step 2 that total is 2,485, the sum of messages `m1..m8`. -/
theorem budget_bar_total_matches_itemsForStep (st : CompState) (s : Int) :
    (tokenBudgetView (lcmReport (flushStaggers (compApplyStep st s))).usedTokens
        TOTAL_BUDGET).usedShown
      = sumTokens (itemsForStep s).items
    ∧ sumTokens (itemsForStep 2).items = 2485 := by
  refine ⟨?_, by decide⟩
  show sumTokens (flushStaggers (compApplyStep st s)).items
      = sumTokens (itemsForStep s).items
  simp only [compApplyStep, flushStaggers]
  split_ifs with h5 h8 h10 hf hstag
  · obtain ⟨rfl, -⟩ := h5
    simp
  · obtain ⟨rfl, -⟩ := h8
    simp
  · obtain ⟨rfl, -⟩ := h10
    simp
  · simp only [List.map_map]
    have hcomp : (StaggerCall.item ∘ fun i => ({ step := s, item := i } : StaggerCall))
        = fun i => i := by
      funext i
      rfl
    rw [hcomp, List.map_id']
    exact sumTokens_perm (List.filter_append_perm
      (fun i => (List.map Item.dataId (itemsForStep st.prevStep).items).contains i.dataId)
      (itemsForStep s).items)
  · simp
  · simp

/-- The overlay component cell never leaves `null` outside a dev
build: the dynamic import is only started under `import.meta.env.DEV`. -/
lemma overlayRun_prod_none (evs : List OverlayEvent) :
    overlayRun false evs = none := by
  induction evs with
  | nil => rfl
  | cons e rest ih =>
      have h : overlayStep false none e = none := by cases e <;> rfl
      show List.foldl (overlayStep false) (overlayStep false none e) rest = none
      rw [h]
      exact ih

/-- C6.  When the build is not a development build, `AgentationOverlay`
renders nothing — its component cell stays `null` after any sequence of
effect/import events, so it returns `null` and never mounts the
third-party toolbar — and erasing the overlay node from the app tree
leaves exactly the production tree, so the scenes' rendered output is
identical with or without it (the scene state machines take no input
from the overlay at all). -/
theorem overlay_inert_in_production :
    (∀ evs : List OverlayEvent,
      overlayRun false evs = none
      ∧ overlayRender (overlayRun false evs) = none)
    ∧ (∀ showDag showTool : Bool,
        (appKinds true showDag showTool).filter
            (fun k => !(k == NodeKind.overlay))
          = appKinds false showDag showTool) := by
  constructor
  · intro evs
    have h := overlayRun_prod_none evs
    exact ⟨h, by rw [h]; rfl⟩
  · decide

/-- C7.  The app renders a hero section, then (in narration order) the
Traditional scene and the LCM scene, with exactly one `SharedPanel` in
a sticky column; the panel contains the token budget bar, the item
list, and (when summaries are present in LCM mode) the SVG-rendered
DAG; and each scene drives the panel through its `onStateChange`
callback, whose payload becomes the corresponding `SharedPanel`
prop. -/
theorem app_layout_order_and_wiring :
    (∀ dev showDag showTool : Bool,
      (appKinds dev showDag showTool).count NodeKind.sharedPanel = 1)
    ∧ (∀ dev showDag showTool : Bool,
        (appKinds dev showDag showTool).indexOf NodeKind.hero
          < (appKinds dev showDag showTool).indexOf NodeKind.tradScene
        ∧ (appKinds dev showDag showTool).indexOf NodeKind.tradScene
          < (appKinds dev showDag showTool).indexOf NodeKind.lcmScene)
    ∧ ("position", "sticky") ∈ panelColumnStyle
    ∧ (∀ showDag showTool : Bool,
        NodeKind.tokenBudget ∈ sharedPanelKinds showDag showTool
        ∧ NodeKind.itemsList ∈ sharedPanelKinds showDag showTool)
    ∧ (∀ showTool : Bool,
        NodeKind.dagPanel ∈ sharedPanelKinds true showTool
        ∧ NodeKind.dagSvg ∈ sharedPanelKinds true showTool)
    ∧ (∀ (a : AppState) (r : TradReport),
        sharedPanelProps (handleTradState a r) = (a.mode, some r, a.lcmState))
    ∧ (∀ (a : AppState) (r : LcmReport),
        sharedPanelProps (handleLcmState a r) = (a.mode, a.tradState, some r)) := by
  refine ⟨by decide, by decide, by decide, by decide, by decide,
    fun a r => rfl, fun a r => rfl⟩

/-- The badge test factors through the message test and the id lookup. -/
lemma itemBadge_eq (F : List String) :
    itemBadge F = (fun i => F.contains i.dataId && i.isMessage) := by
  funext i
  cases i <;> simp [itemBadge, Item.isMessage, Item.dataId, Bool.and_comm]

/-- Filtering by the badge is filtering the message items by id
membership. -/
lemma badge_filter (F : List String) (l : List Item) :
    l.filter (itemBadge F)
      = (l.filter Item.isMessage).filter (fun i => F.contains i.dataId) := by
  rw [List.filter_filter, itemBadge_eq]

/-- With pairwise-distinct ids, filtering a list by membership of the id
in the dropped tail of its own id list recovers exactly that tail. -/
lemma filter_mem_dropped_ids (l : List Item) (k : Nat)
    (h : (l.map Item.dataId).Nodup) :
    l.filter (fun x => ((l.map Item.dataId).drop k).contains x.dataId)
      = l.drop k := by
  have hdisj : List.Disjoint ((l.take k).map Item.dataId)
      ((l.drop k).map Item.dataId) := by
    have h2 : (((l.take k).map Item.dataId)
        ++ ((l.drop k).map Item.dataId)).Nodup := by
      rw [← List.map_append, List.take_append_drop]
      exact h
    exact (List.nodup_append.mp h2).2.2
  have hpred : ((l.map Item.dataId).drop k) = (l.drop k).map Item.dataId :=
    List.map_drop Item.dataId l k ▸ rfl
  rw [hpred]
  set F := (l.drop k).map Item.dataId with hF
  have htake : ∀ x ∈ l.take k, (F.contains x.dataId) = false := by
    intro x hx
    have hx1 : x.dataId ∈ (l.take k).map Item.dataId :=
      List.mem_map_of_mem _ hx
    have hx2 : x.dataId ∉ F := fun hm => hdisj hx1 hm
    simpa using hx2
  have hdrop : ∀ x ∈ l.drop k, (F.contains x.dataId) = true := by
    intro x hx
    have hx1 : x.dataId ∈ F := List.mem_map_of_mem _ hx
    simpa using hx1
  have h1 : (l.take k).filter (fun x => F.contains x.dataId) = [] := by
    rw [List.filter_eq_nil_iff]
    intro a ha
    have h3 := htake a ha
    simp at h3
    simp [h3]
  have h2 : (l.drop k).filter (fun x => F.contains x.dataId) = l.drop k :=
    List.filter_eq_self.mpr hdrop
  conv_lhs => rw [← List.take_append_drop k l]
  rw [List.filter_append, h1, h2, List.nil_append]

/-- C9.  The FRESH TAIL badge: when the fresh tail is not shown no item
is badged; non-message items (summary pills and the placeholder) are
never badged; when it is shown and the item ids are pairwise distinct
(as they are in every scripted list), the badged items are exactly the
last `min(FRESH_TAIL_COUNT, number of raw messages)` message items —
i.e. the message sublist minus its first `length − 4` elements; and the
fresh tail is shown exactly when the step is at least 3 or fast-forward
is active. -/
theorem fresh_tail_badge_spec :
    (∀ (items : List Item) (i : Item),
      itemBadge (freshIdsOf false items) i = false)
    ∧ (∀ (F : List String) (i : Item), i.isMessage = false →
        itemBadge F i = false)
    ∧ (∀ items : List Item, ((items.map Item.dataId).Nodup) →
        items.filter (itemBadge (freshIdsOf true items))
          = (items.filter Item.isMessage).drop
              ((items.filter Item.isMessage).length - FRESH_TAIL_COUNT))
    ∧ (∀ st : CompState,
        (lcmReport st).showFreshTail
          = (decide (3 ≤ st.step) || st.fastForward)) := by
  refine ⟨?_, ?_, ?_, fun st => rfl⟩
  · intro items i
    cases i <;> rfl
  · intro F i h
    cases i with
    | message m => simp [Item.isMessage] at h
    | summary s => rfl
    | fresh p => rfl
  · intro items hnd
    rw [badge_filter]
    have hnd2 : ((items.filter Item.isMessage).map Item.dataId).Nodup :=
      hnd.sublist ((List.filter_sublist items).map Item.dataId)
    have hkey := filter_mem_dropped_ids (items.filter Item.isMessage)
      (((items.filter Item.isMessage).map Item.dataId).length - FRESH_TAIL_COUNT)
      hnd2
    have hfresh : freshIdsOf true items
        = ((items.filter Item.isMessage).map Item.dataId).drop
            (((items.filter Item.isMessage).map Item.dataId).length
              - FRESH_TAIL_COUNT) := rfl
    rw [hfresh]
    simpa [List.length_map] using hkey

/-- Closed instance of `fresh_tail_badge_spec` at the step-6 context
list (one summary pill followed by eight messages): its ids are
pairwise distinct and the badge lands on exactly the last four message
items. -/
theorem fresh_tail_badge_spec_witness :
    (((itemsForStep 6).items.map Item.dataId).Nodup)
    ∧ (itemsForStep 6).items.filter
          (itemBadge (freshIdsOf true (itemsForStep 6).items))
        = ((itemsForStep 6).items.filter Item.isMessage).drop
            (((itemsForStep 6).items.filter Item.isMessage).length
              - FRESH_TAIL_COUNT) := by
  have h : ((itemsForStep 6).items.map Item.dataId).Nodup := by decide
  exact ⟨h, fresh_tail_badge_spec.2.2.1 _ h⟩

/-- The scrub state installed by `onEnter` (and restored when progress
drops below 0.4). -/
def scrubCoreA : ScrubCore :=
  ⟨false, false, [SUMMARY_1, SUMMARY_2],
   [sumItem SUMMARY_1, sumItem SUMMARY_2, ftItem]⟩

/-- The scrub state after the 0.4 milestone. -/
def scrubCoreB : ScrubCore :=
  ⟨true, false, [SUMMARY_1, SUMMARY_2, SUMMARY_3],
   [sumItem SUMMARY_1, sumItem SUMMARY_2, sumItem SUMMARY_3, ftItem]⟩

/-- The scrub state after the 0.72 milestone. -/
def scrubCoreC : ScrubCore :=
  ⟨true, true, [SUMMARY_1, SUMMARY_2, SUMMARY_3, SUMMARY_4],
   [sumItem SUMMARY_1, sumItem SUMMARY_2, sumItem SUMMARY_3,
    sumItem SUMMARY_4, ftItem]⟩

/-- One `onUpdate` invocation maps each of the three reachable scrub
states to one of the three, whatever the progress value. -/
lemma scrubUpdateCore_canon (p : ℚ) (c : ScrubCore)
    (h : c = scrubCoreA ∨ c = scrubCoreB ∨ c = scrubCoreC) :
    scrubUpdateCore p c = scrubCoreA ∨ scrubUpdateCore p c = scrubCoreB
      ∨ scrubUpdateCore p c = scrubCoreC := by
  have h47 : (0.4 : ℚ) ≤ 0.72 := by norm_num
  unfold scrubUpdateCore
  rcases h with rfl | rfl | rfl
  · by_cases hp4 : (0.4 : ℚ) ≤ p
    · have e1 : scrubUpd1 p scrubCoreA = scrubCoreB := by
        unfold scrubUpd1
        rw [if_pos ⟨hp4, rfl⟩]
        decide
      have e2 : scrubUpd2 p scrubCoreB = scrubCoreB := by
        unfold scrubUpd2
        rw [if_neg (fun hc => (not_lt.mpr hp4) hc.1)]
      by_cases hp72 : (0.72 : ℚ) ≤ p
      · have e3 : scrubUpd3 p scrubCoreB = scrubCoreC := by
          unfold scrubUpd3
          rw [if_pos ⟨hp72, rfl⟩]
          decide
        have e4 : scrubUpd4 p scrubCoreC = scrubCoreC := by
          unfold scrubUpd4
          rw [if_neg (fun hc => (not_lt.mpr hp72) hc.1)]
        rw [e1, e2, e3, e4]
        right; right; rfl
      · have e3 : scrubUpd3 p scrubCoreB = scrubCoreB := by
          unfold scrubUpd3
          rw [if_neg (fun hc => hp72 hc.1)]
        have e4 : scrubUpd4 p scrubCoreB = scrubCoreB := by
          unfold scrubUpd4
          rw [if_neg (fun hc => absurd hc.2 (by decide))]
        rw [e1, e2, e3, e4]
        right; left; rfl
    · have e1 : scrubUpd1 p scrubCoreA = scrubCoreA := by
        unfold scrubUpd1
        rw [if_neg (fun hc => hp4 hc.1)]
      have e2 : scrubUpd2 p scrubCoreA = scrubCoreA := by
        unfold scrubUpd2
        rw [if_neg (fun hc => absurd hc.2 (by decide))]
      have e3 : scrubUpd3 p scrubCoreA = scrubCoreA := by
        unfold scrubUpd3
        rw [if_neg (fun hc => hp4 (le_trans h47 hc.1))]
      have e4 : scrubUpd4 p scrubCoreA = scrubCoreA := by
        unfold scrubUpd4
        rw [if_neg (fun hc => absurd hc.2 (by decide))]
      rw [e1, e2, e3, e4]
      left; rfl
  · by_cases hp4 : (0.4 : ℚ) ≤ p
    · have e1 : scrubUpd1 p scrubCoreB = scrubCoreB := by
        unfold scrubUpd1
        rw [if_neg (fun hc => absurd hc.2 (by decide))]
      have e2 : scrubUpd2 p scrubCoreB = scrubCoreB := by
        unfold scrubUpd2
        rw [if_neg (fun hc => (not_lt.mpr hp4) hc.1)]
      by_cases hp72 : (0.72 : ℚ) ≤ p
      · have e3 : scrubUpd3 p scrubCoreB = scrubCoreC := by
          unfold scrubUpd3
          rw [if_pos ⟨hp72, rfl⟩]
          decide
        have e4 : scrubUpd4 p scrubCoreC = scrubCoreC := by
          unfold scrubUpd4
          rw [if_neg (fun hc => (not_lt.mpr hp72) hc.1)]
        rw [e1, e2, e3, e4]
        right; right; rfl
      · have e3 : scrubUpd3 p scrubCoreB = scrubCoreB := by
          unfold scrubUpd3
          rw [if_neg (fun hc => hp72 hc.1)]
        have e4 : scrubUpd4 p scrubCoreB = scrubCoreB := by
          unfold scrubUpd4
          rw [if_neg (fun hc => absurd hc.2 (by decide))]
        rw [e1, e2, e3, e4]
        right; left; rfl
    · have e1 : scrubUpd1 p scrubCoreB = scrubCoreB := by
        unfold scrubUpd1
        rw [if_neg (fun hc => absurd hc.2 (by decide))]
      have e2 : scrubUpd2 p scrubCoreB = scrubCoreA := by
        unfold scrubUpd2
        rw [if_pos ⟨not_le.mp hp4, rfl⟩]
        decide
      have e3 : scrubUpd3 p scrubCoreA = scrubCoreA := by
        unfold scrubUpd3
        rw [if_neg (fun hc => hp4 (le_trans h47 hc.1))]
      have e4 : scrubUpd4 p scrubCoreA = scrubCoreA := by
        unfold scrubUpd4
        rw [if_neg (fun hc => absurd hc.2 (by decide))]
      rw [e1, e2, e3, e4]
      left; rfl
  · by_cases hp4 : (0.4 : ℚ) ≤ p
    · have e1 : scrubUpd1 p scrubCoreC = scrubCoreC := by
        unfold scrubUpd1
        rw [if_neg (fun hc => absurd hc.2 (by decide))]
      have e2 : scrubUpd2 p scrubCoreC = scrubCoreC := by
        unfold scrubUpd2
        rw [if_neg (fun hc => (not_lt.mpr hp4) hc.1)]
      by_cases hp72 : (0.72 : ℚ) ≤ p
      · have e3 : scrubUpd3 p scrubCoreC = scrubCoreC := by
          unfold scrubUpd3
          rw [if_neg (fun hc => absurd hc.2 (by decide))]
        have e4 : scrubUpd4 p scrubCoreC = scrubCoreC := by
          unfold scrubUpd4
          rw [if_neg (fun hc => (not_lt.mpr hp72) hc.1)]
        rw [e1, e2, e3, e4]
        right; right; rfl
      · have e3 : scrubUpd3 p scrubCoreC = scrubCoreC := by
          unfold scrubUpd3
          rw [if_neg (fun hc => hp72 hc.1)]
        have e4 : scrubUpd4 p scrubCoreC = scrubCoreB := by
          unfold scrubUpd4
          rw [if_pos ⟨not_le.mp hp72, rfl⟩]
          decide
        rw [e1, e2, e3, e4]
        right; left; rfl
    · have e1 : scrubUpd1 p scrubCoreC = scrubCoreC := by
        unfold scrubUpd1
        rw [if_neg (fun hc => absurd hc.2 (by decide))]
      have e2 : scrubUpd2 p scrubCoreC = scrubCoreA := by
        unfold scrubUpd2
        rw [if_pos ⟨not_le.mp hp4, rfl⟩]
        decide
      have e3 : scrubUpd3 p scrubCoreA = scrubCoreA := by
        unfold scrubUpd3
        rw [if_neg (fun hc => hp4 (le_trans h47 hc.1))]
      have e4 : scrubUpd4 p scrubCoreA = scrubCoreA := by
        unfold scrubUpd4
        rw [if_neg (fun hc => absurd hc.2 (by decide))]
      rw [e1, e2, e3, e4]
      left; rfl

/-- Any sequence of `onUpdate` invocations keeps the scrub state inside
the three reachable milestone states. -/
lemma scrub_canon_foldl (ps : List ℚ) : ∀ st : CompState,
    (scrubCoreOf st = scrubCoreA ∨ scrubCoreOf st = scrubCoreB
      ∨ scrubCoreOf st = scrubCoreC) →
    (scrubCoreOf (ps.foldl scrubUpdate st) = scrubCoreA
      ∨ scrubCoreOf (ps.foldl scrubUpdate st) = scrubCoreB
      ∨ scrubCoreOf (ps.foldl scrubUpdate st) = scrubCoreC) := by
  induction ps with
  | nil => exact fun st h => h
  | cons p rest ih =>
      intro st h
      apply ih
      have hcore : scrubCoreOf (scrubUpdate st p)
          = scrubUpdateCore p (scrubCoreOf st) := rfl
      rw [hcore]
      exact scrubUpdateCore_canon p _ h

/-- The claimed invariants hold in each reachable milestone state. -/
lemma scrubCore_canon_props (c : ScrubCore)
    (h : c = scrubCoreA ∨ c = scrubCoreB ∨ c = scrubCoreC) :
    ((c.summaries.map Summary.id).Nodup)
    ∧ (SUMMARY_4 ∈ c.summaries → SUMMARY_3 ∈ c.summaries)
    ∧ c.items.getLast? = some ftItem := by
  rcases h with rfl | rfl | rfl <;> exact ⟨by decide, by decide, by decide⟩

/-- C8.  During the fast-forward scrub, after `onEnter` followed by any
sequence of progress updates in `[0,1]`: the summary list never holds
two entries with the same id, `SUMMARY_4` is present only when
`SUMMARY_3` is, and the fresh-tail placeholder is always the last
element of the items list. -/
theorem scrub_fastforward_invariants (st : CompState) (ps : List ℚ)
    (h : ∀ p ∈ ps, 0 ≤ p ∧ p ≤ 1) :
    (((ps.foldl scrubUpdate (scrubEnter st)).summaries.map Summary.id).Nodup)
    ∧ (SUMMARY_4 ∈ (ps.foldl scrubUpdate (scrubEnter st)).summaries →
        SUMMARY_3 ∈ (ps.foldl scrubUpdate (scrubEnter st)).summaries)
    ∧ (ps.foldl scrubUpdate (scrubEnter st)).items.getLast? = some ftItem := by
  have hc := scrub_canon_foldl ps (scrubEnter st) (Or.inl rfl)
  exact scrubCore_canon_props _ hc

/-- Closed instance of `scrub_fastforward_invariants`: entering the
scrub and scrubbing to 0.5, then 0.8, then back to 0.3 keeps the
invariants. -/
theorem scrub_fastforward_invariants_witness :
    (∀ p ∈ ([0.5, 0.8, 0.3] : List ℚ), 0 ≤ p ∧ p ≤ 1)
    ∧ (((([0.5, 0.8, 0.3] : List ℚ).foldl scrubUpdate
          (scrubEnter initCompState)).summaries.map Summary.id).Nodup)
    ∧ (SUMMARY_4 ∈ (([0.5, 0.8, 0.3] : List ℚ).foldl scrubUpdate
          (scrubEnter initCompState)).summaries →
        SUMMARY_3 ∈ (([0.5, 0.8, 0.3] : List ℚ).foldl scrubUpdate
          (scrubEnter initCompState)).summaries)
    ∧ (([0.5, 0.8, 0.3] : List ℚ).foldl scrubUpdate
          (scrubEnter initCompState)).items.getLast? = some ftItem := by
  have h : ∀ p ∈ ([0.5, 0.8, 0.3] : List ℚ), 0 ≤ p ∧ p ≤ 1 := by
    intro p hp
    fin_cases hp <;> norm_num
  have hmain := scrub_fastforward_invariants initCompState [0.5, 0.8, 0.3] h
  exact ⟨h, hmain.1, hmain.2.1, hmain.2.2⟩
